import Mathlib

/-!
Shallow embedding of the adaptive register polling and decoding engine of the
victron_qw_addon repository.

The embedded code is `VictronDataUpdateCoordinator._async_update_data` in
`custom_components/victron_qw_addon/sensor.py`, the sensor description data
model and constants of `custom_components/victron_qw_addon/const.py`, and the
device-identifier validation of `custom_components/victron_qw_addon/config_flow.py`.

Modelling conventions:
- Machine integers are `Nat`/`Int`; register words are `Nat` (the transport
  layer hands back Python ints).
- Python floats are modelled as rationals (`ℚ`); `round` is modelled with
  Python's round-half-to-even semantics (`pyRound`).
- The `pymodbus` client is abstracted as a `Transport`: a function from a read
  request (function kind, address, word count, device identifier) to an
  outcome, which is either a raised exception (`ReadOutcome.exc`, what the
  code's inner `try_read` catches and returns) or a response object carrying
  `isError()`, `exception_code` and `registers`.
- `_fail_counts : dict[int, int]` is modelled as the total function
  `fail_counts : Nat → Nat` with default 0: the code only ever reads it via
  `.get(addr, 0)` or after assignment, and the `if base_address in
  self._fail_counts` guard before the reset-to-0 assignment is observationally
  the unconditional reset (an absent key already behaves as 0).
- `_suppressed : set[int]` is `suppressed : Nat → Bool`.
- The snapshot `data : dict[str, Any]` is `String → Option ℚ`.
-/

namespace VictronQW

/-! ### Data model (const.py) -/

/-- Dataclass `VictronSensorDescription` of const.py, restricted to the fields the
polling engine reads: `key`, `register`, `data_type`, `multiplier`,
`slave_id`. Defaults match the dataclass defaults. -/
structure VictronSensorDescription where
  key : String
  register : Nat := 0
  data_type : String := "int16"
  multiplier : ℚ := 1
  slave_id : Nat := 100
deriving DecidableEq

/-- Constant `DEFAULT_BATTERY_TEMPERATURE_C = 25.0` in const.py. -/
def DEFAULT_BATTERY_TEMPERATURE_C : ℚ := 25

/-- Constant `SLAVE_ID = 21` in const.py. -/
def SLAVE_ID : Nat := 21

/-- The `victron_qw_battery_voltage` descriptor from `BATTERY_SENSORS` in const.py
(register 840, uint16, multiplier 0.1, slave 100). -/
def batteryVoltageDesc : VictronSensorDescription :=
  ⟨"victron_qw_battery_voltage", 840, "uint16", 1/10, 100⟩

/-- The `victron_qw_battery_current` descriptor from `BATTERY_SENSORS` in const.py
(register 841, int16, multiplier 0.1, slave 100). -/
def batteryCurrentDesc : VictronSensorDescription :=
  ⟨"victron_qw_battery_current", 841, "int16", 1/10, 100⟩

/-! ### Transport model -/

/-- The two Modbus read operations used by `try_read` in sensor.py:
`input` is `read_input_registers`, `holding` is `read_holding_registers`. -/
inductive FnKind where
  | input
  | holding
deriving DecidableEq

/-- A pymodbus response object as observed by `_async_update_data`:
`isError()`, `getattr(res, 'exception_code', '?')` (`none` models a missing
attribute) and `res.registers` (`[]` also models a missing/None attribute,
since the code only tests its truthiness and indexes it). -/
structure ModbusResponse where
  isError : Bool
  exception_code : Option Nat
  registers : List Nat
deriving DecidableEq

/-- Result of one `try_read` call: either the exception object the inner
`except` clause caught and returned, or a response object. -/
inductive ReadOutcome where
  | exc
  | resp (r : ModbusResponse)
deriving DecidableEq

/-- One transport request: function kind, register address, word count and
device identifier, the arguments `try_read` passes to the client. -/
structure ReadCall where
  fn : FnKind
  address : Nat
  count : Nat
  slave : Nat
deriving DecidableEq

/-- The Modbus TCP client, abstracted to its observable behaviour within one
cycle: each issued read request yields a fixed outcome. -/
def Transport := ReadCall → ReadOutcome

/-! ### Per-measurement read (sensor.py lines 60-197) -/

/-- Word count per read: `reg_count = 2 if description.data_type in ("int32", "uint32") else 1`. -/
def regCount (d : VictronSensorDescription) : Nat :=
  if d.data_type = "int32" ∨ d.data_type = "uint32" then 2 else 1

/-- The ordered candidate list built by the four `attempts.append` calls:
input and holding function at the base address, then, when the base address is
positive, input and holding at the shifted address `base - 1`. All carry the
descriptor's `slave_id`. -/
def attemptCalls (d : VictronSensorDescription) : List ReadCall :=
  [⟨FnKind.input, d.register, regCount d, d.slave_id⟩,
   ⟨FnKind.holding, d.register, regCount d, d.slave_id⟩] ++
  (if d.register > 0 then
    [⟨FnKind.input, d.register - 1, regCount d, d.slave_id⟩,
     ⟨FnKind.holding, d.register - 1, regCount d, d.slave_id⟩]
   else [])

/-- The `attempts` list of `(label, result)` pairs; the only part of the label
the code later uses is the address after the `@`, so the pair is modelled as
`(address, outcome)`. -/
def attemptsOf (t : Transport) (d : VictronSensorDescription) :
    List (Nat × ReadOutcome) :=
  (attemptCalls d).map (fun c => (c.address, t c))

/-- Selection test of the chosen-result loop: exceptions are skipped
(`isinstance(res, Exception)`), error responses are skipped (`res.isError()`),
the first remaining response is returned. -/
def nonError : ReadOutcome → Option ModbusResponse
  | ReadOutcome.exc => none
  | ReadOutcome.resp r => if r.isError then none else some r

/-- The `chosen_result`/`chosen_label` selection: the first attempt carrying a
non-error response, together with the address it was issued to. -/
def chosenOf (t : Transport) (d : VictronSensorDescription) :
    Option (Nat × ModbusResponse) :=
  (attemptsOf t d).findSome? (fun p => (nonError p.2).map (fun r => (p.1, r)))

/-- The `'ex=10' in s` test on one `fc_summary` entry
`f"{label}:fc={fc} ex={ex}"`: the substring `ex=` occurs exactly once in the
entry, so the test holds iff the decimal rendering of the exception code
starts with `10` (a missing attribute renders as `?` and never matches).
Entries are built only for results that have `isError` and for which it is
true. -/
def reprStartsWithTen (c : Nat) : Bool :=
  match Nat.toDigits 10 c with
  | '1' :: '0' :: _ => true
  | _ => false

/-- The per-response part of the `'ex=10'` test: an error response matches
when its exception code's decimal rendering starts with "10"; a missing
attribute renders as `?` and never matches. `Nat.repr` is
`(Nat.toDigits 10 c).asString`, so the match is stated on the digit list. -/
def gatewayEx10 (r : ModbusResponse) : Bool :=
  r.isError &&
    (match r.exception_code with
     | some c => reprStartsWithTen c
     | none => false)

/-- Test `any('ex=10' in s for s in fc_summary)` over the attempts of one
measurement: exceptions contribute no entry (`hasattr(res, 'isError')` is
false), non-error responses contribute no entry. -/
def anyEx10 (t : Transport) (d : VictronSensorDescription) : Bool :=
  (attemptsOf t d).any (fun p =>
    match p.2 with
    | ReadOutcome.resp r => gatewayEx10 r
    | ReadOutcome.exc => false)

/-- Decoding of the accepted response's word list (sensor.py lines 160-180):
`none` models the two `continue` paths (empty word list; fewer than 2 words
for a 32-bit type). 32-bit: `(high << 16) | low`, signed values wrap at
`0x80000000`. 16-bit: `uint16` is the word itself, every other type falls to
the signed branch wrapping at `0x8000`. -/
def decodeRegisters (d : VictronSensorDescription) (regs : List Nat) :
    Option Int :=
  match regs with
  | [] => none
  | w :: rest =>
    if d.data_type = "uint32" ∨ d.data_type = "int32" then
      match rest with
      | [] => none
      | low :: _ =>
        let raw32 : Nat := (w <<< 16) ||| low
        if d.data_type = "int32" then
          some (if 0x80000000 ≤ raw32 then (raw32 : Int) - 0x100000000
                else (raw32 : Int))
        else some (raw32 : Int)
    else
      if d.data_type = "uint16" then some (w : Int)
      else some (if 0x8000 ≤ w then (w : Int) - 0x10000 else (w : Int))

/-- Scale application (sensor.py lines 182-186): when the multiplier differs
from 1.0 the value is cast to float and multiplied. The decoded value is
always an int, so the guarded `TypeError`/`ValueError` cannot occur. -/
def applyMultiplier (d : VictronSensorDescription) (v : Int) : ℚ :=
  if d.multiplier ≠ 1 then (v : ℚ) * d.multiplier else (v : ℚ)

/-- The coordinator's mutable per-address state: `_fail_counts` (default 0)
and `_suppressed` (membership). -/
structure TrackerState where
  fail_counts : Nat → Nat
  suppressed : Nat → Bool

/-- Fresh coordinator state as built in `__init__`: empty dict, empty set. -/
def trackerInit : TrackerState := ⟨fun _ => 0, fun _ => false⟩

/-- Everything one loop iteration of `_async_update_data` contributes:
updated tracker state, the value stored under the descriptor's key (if any),
whether the iteration incremented the cycle-level `failures` counter, the
`alt_address_used` variable, whether the shifted-address note of line 193 was
emitted, and the transport calls issued. -/
structure StepResult where
  tracker : TrackerState
  value : Option ℚ
  ex10Failure : Bool
  alt_address_used : Option Nat
  altNoted : Bool
  calls : List ReadCall

/-- One iteration of the `for description in self._descriptions` loop
(sensor.py lines 60-197). Order of the guards follows the source: the derived
battery-power key is skipped first, then suppressed addresses. On total
failure the counter increments and suppression latches at 12; on an accepted
response the counter resets to 0 before the word list is inspected. -/
def processOne (t : Transport) (st : TrackerState)
    (d : VictronSensorDescription) : StepResult :=
  if d.key = "victron_qw_battery_power" then
    ⟨st, none, false, none, false, []⟩
  else if st.suppressed d.register then
    ⟨st, none, false, none, false, []⟩
  else
    match chosenOf t d with
    | none =>
      let A := d.register
      let newCount := st.fail_counts A + 1
      let fcNew : Nat → Nat := fun a => if a = A then newCount else st.fail_counts a
      let supNew : Nat → Bool :=
        if 12 ≤ newCount then fun a => if a = A then true else st.suppressed a
        else st.suppressed
      ⟨⟨fcNew, supNew⟩, none, anyEx10 t d, none, false, attemptCalls d⟩
    | some (addr, r) =>
      let A := d.register
      let fcNew : Nat → Nat := fun a => if a = A then 0 else st.fail_counts a
      let alt : Option Nat := if addr ≠ A then some addr else none
      let v : Option ℚ := (decodeRegisters d r.registers).map (applyMultiplier d)
      ⟨⟨fcNew, st.suppressed⟩, v, false, alt, v.isSome && alt.isSome, attemptCalls d⟩

/-! ### One full cycle (sensor.py lines 55-222) -/

/-- The per-cycle `data` dict. -/
def Snapshot := String → Option ℚ

/-- Accumulator of the descriptor loop: tracker state, snapshot under
construction, and the cycle-level `failures` counter. -/
structure CycleAcc where
  tracker : TrackerState
  data : Snapshot
  failures : Nat

/-- Fold step for one descriptor: merge a `processOne` result into the
accumulator (`data[description.key] = value` on success,
`failures += 1` on an ex=10 failure). -/
def stepDescription (t : Transport) (acc : CycleAcc)
    (d : VictronSensorDescription) : CycleAcc :=
  let r := processOne t acc.tracker d
  ⟨r.tracker,
   (match r.value with
    | some v => fun k => if k = d.key then some v else acc.data k
    | none => acc.data),
   acc.failures + (if r.ex10Failure then 1 else 0)⟩

/-- The descriptor loop: `data = {}`, `failures = 0`, then one pass over the
catalog in order. -/
def runCycleCore (t : Transport) (descs : List VictronSensorDescription)
    (st : TrackerState) : CycleAcc :=
  descs.foldl (stepDescription t) ⟨st, fun _ => none, 0⟩

/-- Python's built-in `round` on a real value: round half to even. -/
def pyRound (q : ℚ) : Int :=
  let f : Int := q.floor
  let frac : ℚ := q - (f : ℚ)
  if frac < 1/2 then f
  else if 1/2 < frac then f + 1
  else if f % 2 = 0 then f else f + 1

/-- Derived battery power (sensor.py lines 205-213): set
`data["victron_qw_battery_power"] = round(float(v) * float(c))` exactly when
both voltage and current are in the snapshot. In the rational model the
guarded arithmetic exception cannot occur. -/
def computeBatteryPower (data : Snapshot) : Snapshot :=
  match data "victron_qw_battery_voltage", data "victron_qw_battery_current" with
  | some v, some c =>
    fun k => if k = "victron_qw_battery_power"
             then some ((pyRound (v * c) : Int) : ℚ) else data k
  | _, _ => data

/-- Default substitution (sensor.py lines 215-221): fill battery temperature
with `DEFAULT_BATTERY_TEMPERATURE_C` and total PV power with 0 when absent. -/
def fillDefaults (data : Snapshot) : Snapshot :=
  let d1 : Snapshot :=
    if (data "victron_qw_battery_temperature").isSome then data
    else fun k => if k = "victron_qw_battery_temperature"
                  then some DEFAULT_BATTERY_TEMPERATURE_C else data k
  if (d1 "total_pv_power").isSome then d1
  else fun k => if k = "total_pv_power" then some 0 else d1 k

/-- Observable outcome of one `_async_update_data` call: the returned
snapshot, whether the reconnect heuristic fired (`failures ==
len(self._descriptions)`, line 199), and the tracker state left behind. -/
structure CycleResult where
  data : Snapshot
  reconnect : Bool
  tracker : TrackerState

/-- One full poll cycle: descriptor loop, reconnect heuristic, derived
battery power, default substitution. -/
def runCycle (t : Transport) (descs : List VictronSensorDescription)
    (st : TrackerState) : CycleResult :=
  let acc := runCycleCore t descs st
  ⟨fillDefaults (computeBatteryPower acc.data),
   decide (acc.failures = descs.length),
   acc.tracker⟩

/-- Iterated cycles restricted to a single descriptor, starting from the
fresh coordinator state; cycle `n` uses transport `ts n`. This is the
Failure Tracker's evolution at that descriptor's address. -/
def iterProcess (ts : Nat → Transport) (d : VictronSensorDescription) :
    Nat → TrackerState
  | 0 => trackerInit
  | n + 1 => (processOne (ts n) (iterProcess ts d n) d).tracker

/-! ### Device-identifier validation (config_flow.py) -/

/-- Whitespace stripped by Python's `int(str)` conversion (ASCII range). -/
def isPySpace (c : Char) : Bool :=
  c = ' ' || c = '\t' || c = '\n' || c = '\r' || c = '\x0b' || c = '\x0c'

/-- Numeric value of an ASCII digit. -/
def digitVal (c : Char) : Nat := c.toNat - 48

/-- Digits after the first one, allowing single underscores between digits,
as Python's integer literal grammar does. -/
def parseDigitsAux (acc : Nat) : List Char → Option Nat
  | [] => some acc
  | '_' :: c :: rest =>
    if c.isDigit then parseDigitsAux (acc * 10 + digitVal c) rest else none
  | c :: rest =>
    if c.isDigit then parseDigitsAux (acc * 10 + digitVal c) rest else none

/-- A nonempty digit string (with optional internal underscores). -/
def parseUnsignedDigits : List Char → Option Nat
  | [] => none
  | c :: rest =>
    if c.isDigit then parseDigitsAux (digitVal c) rest else none

/-- Python's `int(s)` on a string, restricted to ASCII: strip surrounding
whitespace, optional single sign, then a digit string; anything else raises
`ValueError`, modelled as `none`. -/
def pyIntOfString (s : String) : Option Int :=
  let cs := ((s.toList.dropWhile isPySpace).reverse.dropWhile isPySpace).reverse
  match cs with
  | '+' :: rest => (parseUnsignedDigits rest).map (fun n => (n : Int))
  | '-' :: rest => (parseUnsignedDigits rest).map (fun n => -(n : Int))
  | _ => (parseUnsignedDigits cs).map (fun n => (n : Int))

/-- Modelled from the spec (section 4.3, as amended for claim C2): scan the
ordered candidate calls and accept the first one whose outcome is a non-error
response, paired with the address it was issued to. Used only to state the
refinement between the loop of sensor.py lines 90-100 and the spec's
first-success rule. -/
def firstNonErrorSpec (t : Transport) : List ReadCall → Option (Nat × ModbusResponse)
  | [] => none
  | c :: rest =>
    match nonError (t c) with
    | some r => some (c.address, r)
    | none => firstNonErrorSpec t rest

/-- Outcome of the slave-id validation in `ConfigFlow.async_step_user` and
`OptionsFlowHandler.async_step_init`: either an entry is created with the
converted value, or `errors[CONF_SLAVE_ID] = "invalid_slave_id"` and the form
is shown again with no entry created. -/
inductive FlowOutcome where
  | created (slave_id : Int)
  | invalid_slave_id
deriving DecidableEq

/-- The validation block of config_flow.py lines 21-37 (identical in lines
59-72): `int(raw)` (a missing value is `None`, so `int` raises `TypeError`),
then the range check `1 ≤ v ≤ 247`. -/
def validateSlaveId (raw_slave : Option String) : FlowOutcome :=
  match raw_slave with
  | none => FlowOutcome.invalid_slave_id
  | some s =>
    match pyIntOfString s with
    | none => FlowOutcome.invalid_slave_id
    | some v =>
      if v < 1 ∨ v > 247 then FlowOutcome.invalid_slave_id
      else FlowOutcome.created v

/-! ### Concrete fixtures used by witnesses and counterexamples -/

/-- Fixture: a plain 16-bit measurement at address 5. -/
def c1desc : VictronSensorDescription := ⟨"c1_meas", 5, "uint16", 1, 100⟩

/-- Fixture: a transport whose every read yields an error response with
exception code 2. -/
def c1t : Transport := fun _ => ReadOutcome.resp ⟨true, some 2, []⟩

/-- Fixture: the always-failing transport on every cycle. -/
def c1ts : Nat → Transport := fun _ => c1t

/-- Fixture: a plain 16-bit measurement at address 10. -/
def c2desc : VictronSensorDescription := ⟨"c2_meas", 10, "uint16", 1, 100⟩

/-- Fixture: reads at address 10 fail, the input read at address 9 returns a
non-error response with an empty word list, and the holding read at address 9
returns a non-error response with one word. -/
def c2t : Transport := fun c =>
  if c.address = 10 then ReadOutcome.resp ⟨true, some 2, []⟩
  else if c.fn = FnKind.input then ReadOutcome.resp ⟨false, none, []⟩
  else ReadOutcome.resp ⟨false, none, [7]⟩

/-- Fixture: a plain 16-bit measurement at address 7. -/
def c3desc : VictronSensorDescription := ⟨"c3_meas", 7, "uint16", 1, 100⟩

/-- Fixture: every read yields an error response with exception code 2
(not the gateway code 10). -/
def c3t : Transport := fun _ => ReadOutcome.resp ⟨true, some 2, []⟩

/-- Fixture: measurement at address 30. -/
def c3descA : VictronSensorDescription := ⟨"c3_a", 30, "uint16", 1, 100⟩

/-- Fixture: measurement at address 31. -/
def c3descB : VictronSensorDescription := ⟨"c3_b", 31, "uint16", 1, 100⟩

/-- Fixture: every read yields an error response with exception code 10. -/
def c3tEx10 : Transport := fun _ => ReadOutcome.resp ⟨true, some 10, []⟩

/-- Fixture: a 32-bit measurement at address 20. -/
def c4desc : VictronSensorDescription := ⟨"c4_meas", 20, "int32", 1, 100⟩

/-- Fixture: every read returns a non-error response carrying a single word,
one short of what a 32-bit value needs. -/
def c4t : Transport := fun _ => ReadOutcome.resp ⟨false, none, [7]⟩

/-- Fixture: tracker state with 5 accumulated failures at address 20. -/
def c4st : TrackerState := ⟨fun a => if a = 20 then 5 else 0, fun _ => false⟩

/-- Fixture: the battery-voltage descriptor with unit multiplier. -/
def c5volt : VictronSensorDescription := ⟨"victron_qw_battery_voltage", 840, "uint16", 1, 100⟩

/-- Fixture: the battery-current descriptor with unit multiplier. -/
def c5curr : VictronSensorDescription := ⟨"victron_qw_battery_current", 841, "int16", 1, 100⟩

/-- Fixture: voltage register reads 48, current register reads 65434
(two's complement for -102), everything else fails. -/
def c5t : Transport := fun c =>
  if c.address = 840 then ReadOutcome.resp ⟨false, none, [48]⟩
  else if c.address = 841 then ReadOutcome.resp ⟨false, none, [65434]⟩
  else ReadOutcome.resp ⟨true, some 2, []⟩

/-- Fixture: a transport on which every read raises. -/
def c6t : Transport := fun _ => ReadOutcome.exc

/-- Fixture: a plain 16-bit measurement at address 50. -/
def c6desc : VictronSensorDescription := ⟨"c6_meas", 50, "uint16", 1, 100⟩

/-- Fixture: an unsigned 16-bit descriptor. -/
def c7u : VictronSensorDescription := ⟨"c7_u", 3, "uint16", 1, 100⟩

/-- Fixture: a signed 16-bit descriptor. -/
def c7s : VictronSensorDescription := ⟨"c7_s", 4, "int16", 1, 100⟩

/-- Fixture: an unsigned 32-bit descriptor. -/
def c8u : VictronSensorDescription := ⟨"c8_u", 1052, "uint32", 1, 21⟩

/-- Fixture: a signed 32-bit descriptor. -/
def c8s : VictronSensorDescription := ⟨"c8_s", 1052, "int32", 1, 21⟩

/-- Fixture: a plain 16-bit measurement at address 40. -/
def c10desc : VictronSensorDescription := ⟨"c10_meas", 40, "uint16", 1, 100⟩

/-- Fixture: every read returns a non-error response with an empty word
list. -/
def c10t : Transport := fun _ => ReadOutcome.resp ⟨false, none, []⟩

/-- Fixture: the empty-response transport on every cycle. -/
def c10ts : Nat → Transport := fun _ => c10t

/-! ### Shared characterization lemmas for `processOne` -/

/-- A derived (battery-power) descriptor is skipped before any transport
call. -/
theorem processOne_skip_key (t : Transport) (st : TrackerState)
    (d : VictronSensorDescription) (h : d.key = "victron_qw_battery_power") :
    processOne t st d = ⟨st, none, false, none, false, []⟩ := by
  simp [processOne, h]

/-- A suppressed address is skipped before any transport call. -/
theorem processOne_suppressed_eq (t : Transport) (st : TrackerState)
    (d : VictronSensorDescription) (hk : d.key ≠ "victron_qw_battery_power")
    (hs : st.suppressed d.register = true) :
    processOne t st d = ⟨st, none, false, none, false, []⟩ := by
  simp [processOne, hk, hs]

/-- The all-attempts-failed branch of the loop body. -/
theorem processOne_fail (t : Transport) (st : TrackerState)
    (d : VictronSensorDescription) (hk : d.key ≠ "victron_qw_battery_power")
    (hs : st.suppressed d.register = false) (hch : chosenOf t d = none) :
    processOne t st d =
      ⟨⟨fun a => if a = d.register then st.fail_counts d.register + 1
                 else st.fail_counts a,
        if 12 ≤ st.fail_counts d.register + 1 then
          fun a => if a = d.register then true else st.suppressed a
        else st.suppressed⟩,
       none, anyEx10 t d, none, false, attemptCalls d⟩ := by
  simp [processOne, hk, hs, hch]

/-- The accepted-response branch of the loop body. -/
theorem processOne_success (t : Transport) (st : TrackerState)
    (d : VictronSensorDescription) (hk : d.key ≠ "victron_qw_battery_power")
    (hs : st.suppressed d.register = false) (a : Nat) (r : ModbusResponse)
    (hch : chosenOf t d = some (a, r)) :
    processOne t st d =
      ⟨⟨fun x => if x = d.register then 0 else st.fail_counts x, st.suppressed⟩,
       (decodeRegisters d r.registers).map (applyMultiplier d), false,
       if a ≠ d.register then some a else none,
       ((decodeRegisters d r.registers).map (applyMultiplier d)).isSome &&
         (if a ≠ d.register then some a else none).isSome,
       attemptCalls d⟩ := by
  simp [processOne, hk, hs, hch]

/-- Processing one descriptor never changes the suppression state of another
address. -/
theorem processOne_suppressed_other (t : Transport) (st : TrackerState)
    (d : VictronSensorDescription) (x : Nat) (hx : x ≠ d.register) :
    (processOne t st d).tracker.suppressed x = st.suppressed x := by
  by_cases hk : d.key = "victron_qw_battery_power"
  · rw [processOne_skip_key t st d hk]
  · by_cases hs : st.suppressed d.register = true
    · rw [processOne_suppressed_eq t st d hk hs]
    · replace hs : st.suppressed d.register = false := by
        cases h : st.suppressed d.register
        · rfl
        · exact absurd h hs
      cases hch : chosenOf t d with
      | none =>
        rw [processOne_fail t st d hk hs hch]
        show (if 12 ≤ st.fail_counts d.register + 1 then
                fun a => if a = d.register then true else st.suppressed a
              else st.suppressed) x = st.suppressed x
        split
        · simp [hx]
        · rfl
      | some p =>
        obtain ⟨a, r⟩ := p
        rw [processOne_success t st d hk hs a r hch]

/-! ### Claims -/

/-- Claim C1: for every register address the Failure Tracker behaves as the
two-state machine Active(count) → Suppressed. A cycle in which every read
attempt for a measurement at the address fails increments the consecutive
failure counter by one, with suppression exactly when the counter reaches 12;
a successful read resets the counter to 0 and leaves the address Active; a
suppressed address is skipped with no transport calls and with the tracker
state unchanged, so suppression is never exited; iterating always-failing
cycles from a fresh state, 11 failures leave the address Active and the 12th
suppresses it, after which no cycle issues a transport call for it. -/
theorem c1_failure_tracker (t : Transport) (ts : Nat → Transport)
    (st : TrackerState) (d : VictronSensorDescription)
    (hkey : d.key ≠ "victron_qw_battery_power")
    (hfail : ∀ n, chosenOf (ts n) d = none) :
    (st.suppressed d.register = false → chosenOf t d = none →
       (processOne t st d).tracker.fail_counts d.register =
         st.fail_counts d.register + 1 ∧
       ((processOne t st d).tracker.suppressed d.register = true ↔
         12 ≤ st.fail_counts d.register + 1)) ∧
    (st.suppressed d.register = false → ∀ a r, chosenOf t d = some (a, r) →
       (processOne t st d).tracker.fail_counts d.register = 0 ∧
       (processOne t st d).tracker.suppressed = st.suppressed) ∧
    (st.suppressed d.register = true →
       (processOne t st d).calls = [] ∧ (processOne t st d).value = none ∧
       (processOne t st d).tracker = st) ∧
    (∀ n, (iterProcess ts d n).fail_counts d.register = min n 12 ∧
          ((iterProcess ts d n).suppressed d.register = true ↔ 12 ≤ n) ∧
          (12 ≤ n → (processOne (ts n) (iterProcess ts d n) d).calls = [])) := by
  refine ⟨?_, ?_, ?_, ?_⟩
  · intro hs hch
    rw [processOne_fail t st d hkey hs hch]
    constructor
    · simp
    · show (if 12 ≤ st.fail_counts d.register + 1 then
              fun a => if a = d.register then true else st.suppressed a
            else st.suppressed) d.register = true ↔
        12 ≤ st.fail_counts d.register + 1
      split
      · next h12 => simp [h12]
      · next h12 => simp [hs, h12]
  · intro hs a r hch
    rw [processOne_success t st d hkey hs a r hch]
    exact ⟨by simp, rfl⟩
  · intro hs
    rw [processOne_suppressed_eq t st d hkey hs]
    exact ⟨rfl, rfl, rfl⟩
  · intro n
    induction n with
    | zero =>
      refine ⟨by simp [iterProcess, trackerInit], ?_, ?_⟩
      · simp [iterProcess, trackerInit]
      · intro h; omega
    | succ n ih =>
      by_cases h12 : 12 ≤ n
      · have hsup : (iterProcess ts d n).suppressed d.register = true :=
          ih.2.1.mpr h12
        have hstep : iterProcess ts d (n + 1) = iterProcess ts d n := by
          show (processOne (ts n) (iterProcess ts d n) d).tracker = _
          rw [processOne_suppressed_eq (ts n) (iterProcess ts d n) d hkey hsup]
        refine ⟨?_, ?_, ?_⟩
        · rw [hstep, ih.1]; omega
        · rw [hstep, hsup]; constructor
          · intro _; omega
          · intro _; rfl
        · intro _
          have hsup1 : (iterProcess ts d (n + 1)).suppressed d.register = true := by
            rw [hstep]; exact hsup
          rw [processOne_suppressed_eq (ts (n + 1)) (iterProcess ts d (n + 1)) d
            hkey hsup1]
      · have hsup : (iterProcess ts d n).suppressed d.register = false := by
          cases h : (iterProcess ts d n).suppressed d.register
          · rfl
          · exact absurd (ih.2.1.mp h) h12
        have hstep : iterProcess ts d (n + 1) =
            (processOne (ts n) (iterProcess ts d n) d).tracker := rfl
        have hcount : (iterProcess ts d n).fail_counts d.register = n := by
          rw [ih.1]; omega
        have hfc : (iterProcess ts d (n + 1)).fail_counts d.register = n + 1 := by
          rw [hstep, processOne_fail (ts n) (iterProcess ts d n) d hkey hsup
            (hfail n)]
          dsimp only
          simp [hcount]
        have hsupIff : (iterProcess ts d (n + 1)).suppressed d.register = true ↔
            12 ≤ n + 1 := by
          rw [hstep, processOne_fail (ts n) (iterProcess ts d n) d hkey hsup
            (hfail n)]
          dsimp only
          rw [hcount]
          split
          · next h => simp [h]
          · next h => simp [hsup]; omega
        refine ⟨by rw [hfc]; omega, hsupIff, ?_⟩
        intro hge
        rw [processOne_suppressed_eq (ts (n + 1)) (iterProcess ts d (n + 1)) d
          hkey (hsupIff.mpr hge)]

/-- Witness for C1 at a concrete descriptor, a fresh tracker and a transport
that always returns exception-code-2 error responses: 11 failing cycles leave
address 5 Active with counter 11, the 12th suppresses it. -/
theorem c1_failure_tracker_witness :
    c1desc.key ≠ "victron_qw_battery_power" ∧
    (iterProcess c1ts c1desc 11).fail_counts 5 = 11 ∧
    (iterProcess c1ts c1desc 11).suppressed 5 = false ∧
    (iterProcess c1ts c1desc 12).suppressed 5 = true := by
  have h := c1_failure_tracker c1t c1ts trackerInit c1desc (by decide)
    (fun _ => rfl)
  refine ⟨by decide, ?_, ?_, ?_⟩
  · simpa using (h.2.2.2 11).1
  · have h11 := (h.2.2.2 11).2.1
    simp only [show ¬(12 ≤ 11) by omega, iff_false, Bool.not_eq_true] at h11
    exact h11
  · exact (h.2.2.2 12).2.1.mpr (by omega)

/-- The selection loop over the eagerly built attempts list computes the
spec's first-match scan over the candidate calls. -/
theorem chosenOf_eq_firstNonErrorSpec (t : Transport)
    (d : VictronSensorDescription) :
    chosenOf t d = firstNonErrorSpec t (attemptCalls d) := by
  unfold chosenOf attemptsOf
  generalize attemptCalls d = cs
  induction cs with
  | nil => rfl
  | cons c rest ih =>
    simp only [List.map_cons, List.findSome?_cons]
    cases h : nonError (t c) with
    | none => simpa [firstNonErrorSpec, h] using ih
    | some r => simp [firstNonErrorSpec, h]

/-- Claim C2 (amended): for a non-suppressed, non-derived measurement with
base address A, one poll cycle issues, in this order, the alternate function
(input registers) at A, the primary function (holding registers) at A, and,
only when A > 0, the alternate and primary functions at A-1, all addressed to
the descriptor's device identifier; the first attempt that returns a
non-error response is accepted regardless of its word list (an accepted
response whose word list is empty, or too short for a 32-bit encoding, yields
no value and no fallback to the remaining attempts); the shifted-address note
is emitted exactly when the accepted attempt used A-1 and a value was
produced. -/
theorem c2_fallback_order (t : Transport) (st : TrackerState)
    (d : VictronSensorDescription) (hkey : d.key ≠ "victron_qw_battery_power")
    (hsup : st.suppressed d.register = false) :
    (processOne t st d).calls =
      [⟨FnKind.input, d.register, regCount d, d.slave_id⟩,
       ⟨FnKind.holding, d.register, regCount d, d.slave_id⟩] ++
      (if d.register > 0 then
        [⟨FnKind.input, d.register - 1, regCount d, d.slave_id⟩,
         ⟨FnKind.holding, d.register - 1, regCount d, d.slave_id⟩]
       else []) ∧
    chosenOf t d = firstNonErrorSpec t (attemptCalls d) ∧
    (∀ a r, chosenOf t d = some (a, r) →
       (processOne t st d).value =
         (decodeRegisters d r.registers).map (applyMultiplier d) ∧
       (processOne t st d).alt_address_used =
         (if a ≠ d.register then some a else none) ∧
       ((processOne t st d).altNoted = true ↔
         a ≠ d.register ∧ (processOne t st d).value ≠ none)) ∧
    (chosenOf t d = none → (processOne t st d).value = none) := by
  have hcalls : (processOne t st d).calls = attemptCalls d := by
    cases hch : chosenOf t d with
    | none => rw [processOne_fail t st d hkey hsup hch]
    | some p =>
      obtain ⟨a, r⟩ := p
      rw [processOne_success t st d hkey hsup a r hch]
  refine ⟨hcalls, chosenOf_eq_firstNonErrorSpec t d, ?_, ?_⟩
  · intro a r hch
    rw [processOne_success t st d hkey hsup a r hch]
    refine ⟨rfl, rfl, ?_⟩
    dsimp only
    by_cases ha : a = d.register
    · simp [ha]
    · simp [ha, Option.isSome_iff_ne_none]
  · intro hch
    rw [processOne_fail t st d hkey hsup hch]

/-- Counterexample to C2 as stated: with reads at the base address 10 failing,
the input read at the shifted address 9 returning a non-error response with an
EMPTY word list and the holding read at 9 returning a non-error response with
one word, the engine accepts the empty response — not "the first attempt that
returns a non-error response with a non-empty word list" — produces no value,
and emits no shifted-address note. -/
theorem c2_counterexample :
    chosenOf c2t c2desc = some (9, ⟨false, none, []⟩) ∧
    (⟨FnKind.holding, 9, 1, 100⟩ : ReadCall) ∈ attemptCalls c2desc ∧
    nonError (c2t ⟨FnKind.holding, 9, 1, 100⟩) = some ⟨false, none, [7]⟩ ∧
    (processOne c2t trackerInit c2desc).value = none ∧
    (processOne c2t trackerInit c2desc).altNoted = false :=
  ⟨rfl, by decide, rfl, rfl, rfl⟩

/-- Witness for the amended C2 at the same fixture: the four calls are issued
in order with the descriptor's device identifier, and the accepted shifted
attempt is recorded in `alt_address_used`. -/
theorem c2_fallback_order_witness :
    (processOne c2t trackerInit c2desc).calls =
      [⟨FnKind.input, 10, 1, 100⟩, ⟨FnKind.holding, 10, 1, 100⟩,
       ⟨FnKind.input, 9, 1, 100⟩, ⟨FnKind.holding, 9, 1, 100⟩] ∧
    (processOne c2t trackerInit c2desc).alt_address_used = some 9 := by
  have h := c2_fallback_order c2t trackerInit c2desc (by decide) rfl
  constructor
  · rw [h.1]; rfl
  · exact ((h.2.2.1 9 ⟨false, none, []⟩ rfl).2.1).trans (by decide)

/-- When every descriptor of a catalog with pairwise distinct registers fails
with an ex=10 response under the tracker state the fold starts from, the
cycle-level failure counter increases by the number of descriptors. -/
theorem foldl_failures_all_ex10 (t : Transport) :
    ∀ (descs : List VictronSensorDescription) (acc : CycleAcc),
    (descs.map (fun d => d.register)).Nodup →
    (∀ d ∈ descs, d.key ≠ "victron_qw_battery_power" ∧
       acc.tracker.suppressed d.register = false ∧
       chosenOf t d = none ∧ anyEx10 t d = true) →
    (descs.foldl (stepDescription t) acc).failures =
      acc.failures + descs.length := by
  intro descs
  induction descs with
  | nil => intro acc _ _; simp
  | cons d rest ih =>
    intro acc hnd h
    obtain ⟨hk, hs, hch, hex⟩ := h d (List.mem_cons_self d rest)
    have hnd' : (∀ x ∈ rest, ¬x.register = d.register) ∧
        (rest.map (fun e => e.register)).Nodup := by simpa using hnd
    have hfail1 : (stepDescription t acc d).failures = acc.failures + 1 := by
      unfold stepDescription
      rw [processOne_fail t acc.tracker d hk hs hch]
      dsimp only
      rw [hex]
      rfl
    have hsup1 : ∀ e ∈ rest,
        (stepDescription t acc d).tracker.suppressed e.register = false := by
      intro e he
      have hne : e.register ≠ d.register := hnd'.1 e he
      show (processOne t acc.tracker d).tracker.suppressed e.register = false
      rw [processOne_suppressed_other t acc.tracker d e.register hne]
      exact (h e (List.mem_cons_of_mem d he)).2.1
    simp only [List.foldl_cons]
    rw [ih (stepDescription t acc d) hnd'.2 (fun e he =>
      ⟨(h e (List.mem_cons_of_mem d he)).1, hsup1 e he,
       (h e (List.mem_cons_of_mem d he)).2.2.1,
       (h e (List.mem_cons_of_mem d he)).2.2.2⟩), hfail1]
    simp [List.length_cons]
    omega

/-- Claim C3 (amended): the cycle-level counter counts only measurements whose
every attempt failed with at least one error response whose exception code
renders with a leading "10" (the gateway-target-no-response code 10); the
transport is closed and reopened exactly when that counter equals the total
descriptor count, so a cycle in which every descriptor fails this way — with
pairwise distinct registers, none suppressed, and no derived battery-power
descriptor present — ends with a reconnect. A cycle whose reads all fail with
other error codes performs no reconnect (see the counterexample), and there is
never a per-measurement retry: each candidate call of a measurement is issued
exactly once per cycle. -/
theorem c3_reconnect_heuristic (t : Transport)
    (descs : List VictronSensorDescription) (st : TrackerState)
    (hnd : (descs.map (fun d => d.register)).Nodup)
    (h : ∀ d ∈ descs, d.key ≠ "victron_qw_battery_power" ∧
       st.suppressed d.register = false ∧ chosenOf t d = none ∧
       anyEx10 t d = true) :
    (runCycle t descs st).reconnect = true := by
  show decide ((runCycleCore t descs st).failures = descs.length) = true
  have := foldl_failures_all_ex10 t descs ⟨st, fun _ => none, 0⟩ hnd h
  unfold runCycleCore
  rw [this]
  simp

/-- Counterexample to C3 as stated: a one-descriptor catalog whose every read
attempt fails with exception code 2 — so every measurement's read fails in
the cycle — yet the cycle performs no reconnect, because the cycle-level
counter only counts ex=10 failures and stays 0 ≠ 1. -/
theorem c3_counterexample :
    chosenOf c3t c3desc = none ∧
    (runCycle c3t [c3desc] trackerInit).reconnect = false :=
  ⟨rfl, rfl⟩

/-- Witness for the amended C3: two distinct-register descriptors all failing
with exception code 10 produce a reconnect. -/
theorem c3_reconnect_heuristic_witness :
    (runCycle c3tEx10 [c3descA, c3descB] trackerInit).reconnect = true := by
  apply c3_reconnect_heuristic c3tEx10 [c3descA, c3descB] trackerInit (by decide)
  intro d hd
  simp only [List.mem_cons, List.not_mem_nil, or_false] at hd
  rcases hd with rfl | rfl
  · exact ⟨by decide, rfl, rfl, by decide⟩
  · exact ⟨by decide, rfl, rfl, by decide⟩

/-- A word list shorter than 2 decodes to nothing under a 32-bit encoding. -/
theorem decodeRegisters_short (d : VictronSensorDescription) (regs : List Nat)
    (h32 : d.data_type = "uint32" ∨ d.data_type = "int32")
    (hlen : regs.length < 2) : decodeRegisters d regs = none := by
  cases regs with
  | nil => rfl
  | cons w rest =>
    cases rest with
    | nil =>
      simp only [decodeRegisters]
      rw [if_pos h32]
    | cons l rest2 =>
      simp only [List.length_cons] at hlen
      omega

/-- Claim C4 (amended): a read for a 32-bit encoded measurement whose accepted
response carries fewer than 2 words produces no value for the measurement —
nothing is added to the cycle's snapshot — but, unlike a protocol error, it
does NOT count toward the address's consecutive-failure streak: the
success-path reset has already set the counter to 0 before the word list is
inspected, the suppression state is unchanged, and the cycle-level failure
counter is untouched. -/
theorem c4_malformed_response (t : Transport) (st : TrackerState)
    (d : VictronSensorDescription) (hkey : d.key ≠ "victron_qw_battery_power")
    (hsup : st.suppressed d.register = false)
    (h32 : d.data_type = "uint32" ∨ d.data_type = "int32")
    (a : Nat) (r : ModbusResponse) (hch : chosenOf t d = some (a, r))
    (hlen : r.registers.length < 2) :
    (processOne t st d).value = none ∧
    (processOne t st d).tracker.fail_counts d.register = 0 ∧
    (processOne t st d).tracker.suppressed = st.suppressed ∧
    (processOne t st d).ex10Failure = false := by
  rw [processOne_success t st d hkey hsup a r hch]
  refine ⟨?_, by simp, rfl, rfl⟩
  dsimp only
  rw [decodeRegisters_short d r.registers h32 hlen]
  rfl

/-- Counterexample to C4 as stated: an int32 measurement at address 20 with 5
accumulated failures receives a non-error response with a single word; the
claim says this counts toward the failure streak (the counter would become
6), but the code resets the counter to 0 and adds no value. -/
theorem c4_counterexample :
    c4st.fail_counts 20 = 5 ∧
    chosenOf c4t c4desc = some (20, ⟨false, none, [7]⟩) ∧
    (processOne c4t c4st c4desc).value = none ∧
    (processOne c4t c4st c4desc).tracker.fail_counts 20 = 0 :=
  ⟨rfl, rfl, rfl, rfl⟩

/-- Witness for the amended C4 at the concrete fixture: no value, counter
reset to 0, suppression unchanged. -/
theorem c4_malformed_response_witness :
    (processOne c4t c4st c4desc).value = none ∧
    (processOne c4t c4st c4desc).tracker.fail_counts c4desc.register = 0 ∧
    (processOne c4t c4st c4desc).tracker.suppressed = c4st.suppressed := by
  have h := c4_malformed_response c4t c4st c4desc (by decide) rfl
    (by right; rfl) 20 ⟨false, none, [7]⟩ rfl (by decide)
  exact ⟨h.1, h.2.1, h.2.2.1⟩

/-- Claim C10: when the first accepted (non-error) response for an address
carries an empty word list — or fewer than 2 words for a 32-bit encoding —
the address's consecutive-failure counter is reset to 0 (the success-path
reset precedes the word-list inspection) and no value is added to the
snapshot; an address that always yields such responses never accumulates
failures and is never suppressed. -/
theorem c10_unusable_response_resets (t : Transport) (ts : Nat → Transport)
    (st : TrackerState) (d : VictronSensorDescription)
    (hkey : d.key ≠ "victron_qw_battery_power")
    (hbad : ∀ n, ∃ a r, chosenOf (ts n) d = some (a, r) ∧
       (r.registers = [] ∨ ((d.data_type = "uint32" ∨ d.data_type = "int32") ∧
         r.registers.length < 2))) :
    (∀ a r, st.suppressed d.register = false → chosenOf t d = some (a, r) →
       r.registers = [] ∨ ((d.data_type = "uint32" ∨ d.data_type = "int32") ∧
         r.registers.length < 2) →
       (processOne t st d).value = none ∧
       (processOne t st d).tracker.fail_counts d.register = 0 ∧
       (processOne t st d).tracker.suppressed = st.suppressed) ∧
    (∀ n, (iterProcess ts d n).fail_counts d.register = 0 ∧
          (iterProcess ts d n).suppressed d.register = false) := by
  have hdec : ∀ r : ModbusResponse,
      r.registers = [] ∨ ((d.data_type = "uint32" ∨ d.data_type = "int32") ∧
        r.registers.length < 2) → decodeRegisters d r.registers = none := by
    intro r hbadr
    rcases hbadr with hempty | ⟨h32, hlen⟩
    · rw [hempty]; rfl
    · exact decodeRegisters_short d r.registers h32 hlen
  constructor
  · intro a r hs hch hbadr
    rw [processOne_success t st d hkey hs a r hch]
    refine ⟨?_, by simp, rfl⟩
    dsimp only
    rw [hdec r hbadr]
    rfl
  · intro n
    induction n with
    | zero => exact ⟨rfl, rfl⟩
    | succ n ih =>
      obtain ⟨a, r, hch, hbadr⟩ := hbad n
      have hstep : iterProcess ts d (n + 1) =
          (processOne (ts n) (iterProcess ts d n) d).tracker := rfl
      rw [hstep, processOne_success (ts n) (iterProcess ts d n) d hkey ih.2
        a r hch]
      exact ⟨by simp, ih.2⟩

/-- Witness for C10: 20 consecutive cycles of non-error empty-word-list
responses leave the counter at 0 and the address unsuppressed. -/
theorem c10_unusable_response_resets_witness :
    (iterProcess c10ts c10desc 20).fail_counts 40 = 0 ∧
    (iterProcess c10ts c10desc 20).suppressed 40 = false := by
  have h := c10_unusable_response_resets c10t c10ts trackerInit c10desc
    (by decide) (fun _ => ⟨40, ⟨false, none, []⟩, rfl, Or.inl rfl⟩)
  exact ⟨(h.2 20).1, (h.2 20).2⟩

/-- The battery-power descriptor is skipped in the loop, so the raw snapshot
never holds a value under the battery-power key. -/
theorem foldl_data_no_battery_power (t : Transport) :
    ∀ (descs : List VictronSensorDescription) (acc : CycleAcc),
    acc.data "victron_qw_battery_power" = none →
    (descs.foldl (stepDescription t) acc).data "victron_qw_battery_power" =
      none := by
  intro descs
  induction descs with
  | nil => intro acc h; exact h
  | cons d rest ih =>
    intro acc h
    simp only [List.foldl_cons]
    apply ih
    show (stepDescription t acc d).data "victron_qw_battery_power" = none
    unfold stepDescription
    cases hv : (processOne t acc.tracker d).value with
    | none => dsimp only; rw [hv]; exact h
    | some v =>
      have hk : d.key ≠ "victron_qw_battery_power" := by
        intro hk
        rw [processOne_skip_key t acc.tracker d hk] at hv
        simp at hv
      dsimp only
      rw [hv]
      dsimp only
      rw [if_neg (fun hh => hk hh.symm)]
      exact h

/-- Specialization to a full cycle's raw snapshot. -/
theorem runCycleCore_no_battery_power (t : Transport)
    (descs : List VictronSensorDescription) (st : TrackerState) :
    (runCycleCore t descs st).data "victron_qw_battery_power" = none :=
  foldl_data_no_battery_power t descs ⟨st, fun _ => none, 0⟩ rfl

/-- The derived-power stage touches only the battery-power key. -/
theorem computeBatteryPower_other (data : Snapshot) (k : String)
    (h : k ≠ "victron_qw_battery_power") :
    computeBatteryPower data k = data k := by
  unfold computeBatteryPower
  cases data "victron_qw_battery_voltage" <;>
    cases data "victron_qw_battery_current" <;> simp [h]

/-- The default-substitution stage touches only the battery-temperature and
total-PV-power keys. -/
theorem fillDefaults_other (data : Snapshot) (k : String)
    (h1 : k ≠ "victron_qw_battery_temperature") (h2 : k ≠ "total_pv_power") :
    fillDefaults data k = data k := by
  simp only [fillDefaults]
  split_ifs <;> simp [h1, h2]

/-- After default substitution the battery-temperature and total-PV-power
keys are always present. -/
theorem fillDefaults_present (data : Snapshot) :
    ((fillDefaults data) "victron_qw_battery_temperature").isSome = true ∧
    ((fillDefaults data) "total_pv_power").isSome = true := by
  simp only [fillDefaults]
  split_ifs with ht hp hp' <;> simp_all

/-- An absent battery temperature is filled with the default. -/
theorem fillDefaults_temp_none (data : Snapshot)
    (h : data "victron_qw_battery_temperature" = none) :
    fillDefaults data "victron_qw_battery_temperature" =
      some DEFAULT_BATTERY_TEMPERATURE_C := by
  simp only [fillDefaults]
  split_ifs <;> simp_all

/-- An absent total PV power is filled with 0. -/
theorem fillDefaults_pv_none (data : Snapshot)
    (h : data "total_pv_power" = none) :
    fillDefaults data "total_pv_power" = some 0 := by
  simp only [fillDefaults]
  split_ifs <;> simp_all

/-- Claim C5: the derived battery-power value is present in the final
snapshot exactly when both battery voltage and battery current are present in
the cycle's raw snapshot, in which case it equals their product rounded
(Python `round`, half to even); with voltage 48.3 and current -10.2 the
result is -493. In the rational embedding the guarded arithmetic exception of
the source cannot occur, so the swallow branch is unreachable. -/
theorem c5_battery_power (t : Transport) (descs : List VictronSensorDescription)
    (st : TrackerState) :
    (∀ v c,
       (runCycleCore t descs st).data "victron_qw_battery_voltage" = some v →
       (runCycleCore t descs st).data "victron_qw_battery_current" = some c →
       (runCycle t descs st).data "victron_qw_battery_power" =
         some ((pyRound (v * c) : Int) : ℚ)) ∧
    ((runCycleCore t descs st).data "victron_qw_battery_voltage" = none ∨
     (runCycleCore t descs st).data "victron_qw_battery_current" = none →
     (runCycle t descs st).data "victron_qw_battery_power" = none) ∧
    pyRound ((483 : ℚ) / 10 * (-102 / 10)) = -493 := by
  have hdata : (runCycle t descs st).data =
      fillDefaults (computeBatteryPower (runCycleCore t descs st).data) := rfl
  refine ⟨?_, ?_, ?_⟩
  · intro v c hv hc
    rw [hdata, fillDefaults_other _ _ (by decide) (by decide)]
    unfold computeBatteryPower
    rw [hv, hc]
    simp
  · intro h
    rw [hdata, fillDefaults_other _ _ (by decide) (by decide)]
    have hbp := runCycleCore_no_battery_power t descs st
    rcases h with hv | hc
    · unfold computeBatteryPower
      rw [hv]
      exact hbp
    · unfold computeBatteryPower
      rw [hc]
      cases (runCycleCore t descs st).data "victron_qw_battery_voltage" <;>
        exact hbp
  · have hq : (483 : ℚ) / 10 * (-102 / 10) = -24633 / 50 := by norm_num
    rw [hq]
    have hfl : ((-24633 : ℚ) / 50).floor = -493 := by
      rw [(Rat.floor_def' _).trans Rat.floor_def.symm, Int.floor_eq_iff]
      constructor <;> norm_num
    simp only [pyRound]
    rw [hfl]
    norm_num

/-- Witness for C5: a cycle reading voltage 48 and current -102 (unit
multipliers) yields the rounded product as battery power. -/
theorem c5_battery_power_witness :
    (runCycle c5t [c5volt, c5curr] trackerInit).data "victron_qw_battery_power"
      = some ((pyRound (((48 : Int) : ℚ) * ((-102 : Int) : ℚ)) : Int) : ℚ) :=
  (c5_battery_power c5t [c5volt, c5curr] trackerInit).1
    ((48 : Int) : ℚ) ((-102 : Int) : ℚ) rfl rfl

/-- Claim C6: every final snapshot of a completed cycle contains the
battery-temperature and total-PV-power keys; when absent after the direct
reads, battery temperature is filled with the configured default 25.0 °C and
total PV power with 0 — even in a cycle where every read failed. -/
theorem c6_default_substitution (t : Transport)
    (descs : List VictronSensorDescription) (st : TrackerState) :
    ((runCycle t descs st).data "victron_qw_battery_temperature").isSome = true ∧
    ((runCycle t descs st).data "total_pv_power").isSome = true ∧
    ((runCycleCore t descs st).data "victron_qw_battery_temperature" = none →
       (runCycle t descs st).data "victron_qw_battery_temperature" =
         some DEFAULT_BATTERY_TEMPERATURE_C) ∧
    ((runCycleCore t descs st).data "total_pv_power" = none →
       (runCycle t descs st).data "total_pv_power" = some 0) := by
  have hdata : (runCycle t descs st).data =
      fillDefaults (computeBatteryPower (runCycleCore t descs st).data) := rfl
  refine ⟨?_, ?_, ?_, ?_⟩
  · rw [hdata]; exact (fillDefaults_present _).1
  · rw [hdata]; exact (fillDefaults_present _).2
  · intro h
    rw [hdata]
    apply fillDefaults_temp_none
    rw [computeBatteryPower_other _ _ (by decide)]
    exact h
  · intro h
    rw [hdata]
    apply fillDefaults_pv_none
    rw [computeBatteryPower_other _ _ (by decide)]
    exact h

/-- Witness for C6: a cycle in which the only measurement's every read raises
still produces a snapshot with battery temperature 25.0 and total PV power
0. -/
theorem c6_default_substitution_witness :
    (runCycle c6t [c6desc] trackerInit).data "victron_qw_battery_temperature" =
      some DEFAULT_BATTERY_TEMPERATURE_C ∧
    (runCycle c6t [c6desc] trackerInit).data "total_pv_power" = some 0 := by
  have h := c6_default_substitution c6t [c6desc] trackerInit
  exact ⟨h.2.2.1 rfl, h.2.2.2 rfl⟩

/-- For a low word below 2^16, the 32-bit combination `(high << 16) | low` is
plain positional arithmetic. -/
theorem shiftLeft16_lor (h l : Nat) (hl : l < 65536) :
    (h <<< 16) ||| l = h * 65536 + l := by
  have e : (2 : Nat) ^ 16 * h + l = 2 ^ 16 * h ||| l :=
    Nat.mul_add_lt_is_or (by omega) h
  rw [Nat.shiftLeft_eq, Nat.mul_comm h (2 ^ 16), ← e]

/-- Claim C7: for every 16-bit word w with scale 1.0, decoding under uint16
returns w itself; decoding under int16 returns w - 0x10000 when w ≥ 0x8000
and w otherwise, a value in [-32768, 32767] congruent to w modulo 65536. -/
theorem c7_decode16 (du ds : VictronSensorDescription) (w : Nat)
    (hu : du.data_type = "uint16") (hum : du.multiplier = 1)
    (hs : ds.data_type = "int16") (hw : w ≤ 65535) :
    (decodeRegisters du [w]).map (applyMultiplier du) = some ((w : Int) : ℚ) ∧
    decodeRegisters ds [w] =
      some (if 0x8000 ≤ w then (w : Int) - 0x10000 else (w : Int)) ∧
    (∀ z : Int, decodeRegisters ds [w] = some z →
       -32768 ≤ z ∧ z ≤ 32767 ∧ z % 65536 = (w : Int) % 65536) := by
  refine ⟨?_, ?_, ?_⟩
  · simp [decodeRegisters, hu, applyMultiplier, hum]
  · simp [decodeRegisters, hs]
  · intro z hz
    simp [decodeRegisters, hs] at hz
    split at hz <;> omega

/-- Witness for C7 at w = 40000: uint16 decodes to 40000, int16 decodes to
-25536, which is congruent to 40000 modulo 65536. -/
theorem c7_decode16_witness :
    decodeRegisters c7s [40000] = some (-25536) ∧
    (-25536 : Int) % 65536 = (40000 : Int) % 65536 ∧
    (decodeRegisters c7u [40000]).map (applyMultiplier c7u) =
      some ((40000 : Int) : ℚ) := by
  obtain ⟨h1, h2, h3⟩ := c7_decode16 c7u c7s 40000 rfl rfl rfl (by omega)
  refine ⟨?_, ?_, h1⟩
  · rw [h2]; norm_num
  · have := h3 (-25536) (by rw [h2]; norm_num)
    exact this.2.2

/-- Claim C8: splitting a 32-bit value into its high and low 16-bit words and
decoding the pair recovers the value: for uint32 every v in [0, 2^32), for
int32 every v in [-2^31, 2^31) via its two's-complement representation. -/
theorem c8_decode32_roundtrip (du ds : VictronSensorDescription)
    (hu : du.data_type = "uint32") (hs : ds.data_type = "int32") :
    (∀ v : Nat, v < 4294967296 →
       decodeRegisters du [v / 65536, v % 65536] = some ((v : Int))) ∧
    (∀ v : Int, -2147483648 ≤ v → v < 2147483648 →
       decodeRegisters ds [(v % 4294967296).toNat / 65536,
                           (v % 4294967296).toNat % 65536] = some v) := by
  constructor
  · intro v hv
    have hcomb : ((v / 65536) <<< 16) ||| (v % 65536) = v := by
      rw [shiftLeft16_lor _ _ (Nat.mod_lt v (by omega))]
      omega
    simp [decodeRegisters, hu, hcomb]
  · intro v hlo hhi
    have hmod : (0 : Int) ≤ v % 4294967296 := Int.emod_nonneg v (by norm_num)
    have htn : ((v % 4294967296).toNat : Int) = v % 4294967296 :=
      Int.toNat_of_nonneg hmod
    set n : Nat := (v % 4294967296).toNat with hn
    have hcomb : ((n / 65536) <<< 16) ||| (n % 65536) = n := by
      rw [shiftLeft16_lor _ _ (Nat.mod_lt n (by omega))]
      omega
    simp only [decodeRegisters, hs]
    norm_num [hcomb]
    split
    · next hge => omega
    · next hge => omega

/-- Witness for C8 at v = 3000000000 (uint32) and v = -5 (int32). -/
theorem c8_decode32_roundtrip_witness :
    decodeRegisters c8u [3000000000 / 65536, 3000000000 % 65536] =
      some ((3000000000 : Nat) : Int) ∧
    decodeRegisters c8s [((-5 : Int) % 4294967296).toNat / 65536,
                         ((-5 : Int) % 4294967296).toNat % 65536] =
      some (-5) := by
  have h := c8_decode32_roundtrip c8u c8s rfl rfl
  exact ⟨h.1 3000000000 (by norm_num), h.2 (-5) (by norm_num) (by norm_num)⟩

/-- Claim C9: a user-supplied device-identifier override is accepted at
configuration time — an entry is created — if and only if it parses as an
integer in [1, 247]; any other input (missing value, non-integer text, or an
out-of-range integer) is rejected with invalid_slave_id and no entry is
created. -/
theorem c9_slave_id_validation (raw : Option String) :
    (∀ v : Int, validateSlaveId raw = FlowOutcome.created v ↔
       ((∃ s, raw = some s ∧ pyIntOfString s = some v) ∧ 1 ≤ v ∧ v ≤ 247)) ∧
    (validateSlaveId raw = FlowOutcome.invalid_slave_id ↔
       ¬∃ v : Int, (∃ s, raw = some s ∧ pyIntOfString s = some v) ∧
         1 ≤ v ∧ v ≤ 247) := by
  cases raw with
  | none => refine ⟨fun v => by simp [validateSlaveId], by simp [validateSlaveId]⟩
  | some s =>
    cases hp : pyIntOfString s with
    | none =>
      refine ⟨fun v => by simp [validateSlaveId, hp], by simp [validateSlaveId, hp]⟩
    | some w =>
      by_cases hw : w < 1 ∨ w > 247
      · refine ⟨fun v => ?_, ?_⟩
        · simp only [validateSlaveId, hp]
          rw [if_pos hw]
          constructor
          · intro hc; exact FlowOutcome.noConfusion hc
          · rintro ⟨⟨s2, hs2, hp2⟩, h1, h2⟩
            injection hs2 with hss
            subst hss
            rw [hp] at hp2
            injection hp2 with hv
            omega
        · simp only [validateSlaveId, hp]
          rw [if_pos hw]
          constructor
          · rintro - ⟨v, ⟨s2, hs2, hp2⟩, h1, h2⟩
            injection hs2 with hss
            subst hss
            rw [hp] at hp2
            injection hp2 with hv
            omega
          · intro _; rfl
      · refine ⟨fun v => ?_, ?_⟩
        · simp only [validateSlaveId, hp]
          rw [if_neg hw]
          constructor
          · intro hc
            injection hc with hv
            subst hv
            exact ⟨⟨s, rfl, hp⟩, by omega, by omega⟩
          · rintro ⟨⟨s2, hs2, hp2⟩, h1, h2⟩
            injection hs2 with hss
            subst hss
            rw [hp] at hp2
            injection hp2 with hv
            subst hv
            rfl
        · simp only [validateSlaveId, hp]
          rw [if_neg hw]
          constructor
          · intro hc; exact FlowOutcome.noConfusion hc
          · intro hne
            exact (hne ⟨w, ⟨s, rfl, hp⟩, by omega, by omega⟩).elim

/-- Witness for C9: the string "100" creates an entry with value 100, the
out-of-range string "300" and the non-numeric string "abc" are rejected. -/
theorem c9_slave_id_validation_witness :
    validateSlaveId (some "100") = FlowOutcome.created 100 ∧
    validateSlaveId (some "300") = FlowOutcome.invalid_slave_id ∧
    validateSlaveId (some "abc") = FlowOutcome.invalid_slave_id := by
  refine ⟨?_, ?_, ?_⟩
  · exact ((c9_slave_id_validation (some "100")).1 100).mpr
      ⟨⟨"100", rfl, by decide⟩, by omega, by omega⟩
  · refine (c9_slave_id_validation (some "300")).2.mpr ?_
    rintro ⟨v, ⟨s2, hs2, hp2⟩, h1, h2⟩
    injection hs2 with hss
    subst hss
    have h300 : pyIntOfString "300" = some 300 := by decide
    rw [h300] at hp2
    injection hp2 with hv
    omega
  · refine (c9_slave_id_validation (some "abc")).2.mpr ?_
    rintro ⟨v, ⟨s2, hs2, hp2⟩, h1, h2⟩
    injection hs2 with hss
    subst hss
    have habc : pyIntOfString "abc" = none := by decide
    rw [habc] at hp2
    exact Option.noConfusion hp2

end VictronQW
